import Mathlib

/-!
Verification of the smart-bookmark-app client-side synchronization model.

This file is a shallow embedding of the data-access module
(`src/lib/supabase.ts`) and of the reconciliation handlers of the `Home`
component (optimistic mutations and the realtime subscription callback).

Modelling conventions:
* The remote collaborator (persistence + auth + push service) is external to
  the repository; each call's remote outcome is an explicit input (a failure
  flag, or an `Except` response).  The remote store itself is a `List Bookmark`
  and the issued list query (owner-equality filter, `created_at` descending
  order) is modelled by `queryBookmarks`.
* The supabase client may be unconfigured (missing credentials); this is the
  `configured : Bool` parameter, matching the `if (!supabase)` guards.
* Timestamps are natural numbers; fallible operations that `throw` in the
  source return `Except String _`.
-/

set_option linter.unusedVariables false

namespace SmartBookmark

/-- The `Bookmark` record of the data model (`src/types`): server-assigned
`id` and `created_at`, owner `user_id`, user-supplied `title` and `url`. -/
structure Bookmark where
  id : String
  user_id : String
  title : String
  url : String
  created_at : Nat
deriving DecidableEq, Repr

/-- Newest-first ordering on bookmarks: `a` precedes `b` when `a` was created
no earlier than `b` (this is the `order('created_at', { ascending: false })`
ordering of the list query). -/
def byNewest (a b : Bookmark) : Prop := b.created_at ≤ a.created_at

instance : DecidableRel byNewest := fun a b =>
  inferInstanceAs (Decidable (b.created_at ≤ a.created_at))

instance : IsTotal Bookmark byNewest :=
  ⟨fun a b => Nat.le_total b.created_at a.created_at⟩

instance : IsTrans Bookmark byNewest :=
  ⟨fun _ _ _ h1 h2 => Nat.le_trans h2 h1⟩

/-- The list query issued by `getBookmarks`: select the rows whose `user_id`
equals the requested owner, ordered by `created_at` descending.  This models
the remote store's answer to `.eq('user_id', userId).order('created_at',
{ ascending: false })`. -/
def queryBookmarks (db : List Bookmark) (uid : String) : List Bookmark :=
  List.insertionSort byNewest (db.filter fun b => b.user_id == uid)

/-- `getBookmarks` (`src/lib/supabase.ts`): returns `[]` when the client is
unconfigured; issues the owner-scoped descending query; on a remote error the
error is logged and `[]` is returned — the function is total and never raises
to the caller.  `rf` is the remote-failure flag for this call. -/
def getBookmarks (configured rf : Bool) (db : List Bookmark) (uid : String) :
    List Bookmark :=
  if configured then (if rf then [] else queryBookmarks db uid) else []

/-- `addBookmark` (`src/lib/supabase.ts`): returns the absence sentinel
(`none`) when unconfigured; submits `{user_id, title, url}` to the remote
store, whose response `resp` either is an error (logged, `none` returned) or
carries the fully server-populated record. -/
def addBookmark (configured : Bool) (uid title url : String)
    (resp : Except String Bookmark) : Option Bookmark :=
  if configured then
    match resp with
    | .error _ => none
    | .ok b => some b
  else none

/-- `deleteBookmark` (`src/lib/supabase.ts`): `false` when unconfigured;
otherwise reports whether the remote delete succeeded (`rf` is the
remote-failure flag; on failure the error is logged and `false` returned). -/
def deleteBookmark (configured rf : Bool) : Bool :=
  if configured then (if rf then false else true) else false

/-- `signInWithGoogle` (`src/lib/supabase.ts`): throws
`'Supabase not configured'` when the client is unconfigured; otherwise
delegates to the opaque OAuth redirect flow. -/
def signInWithGoogle (configured : Bool) : Except String Unit :=
  if configured then .ok () else .error "Supabase not configured"

/-- `signOut` (`src/lib/supabase.ts`): throws `'Supabase not configured'`
when the client is unconfigured. -/
def signOut (configured : Bool) : Except String Unit :=
  if configured then .ok () else .error "Supabase not configured"

/-- `subscribeToBookmarks` (`src/lib/supabase.ts`): throws
`'Supabase not initialized'` when unconfigured; otherwise opens a push channel
filtered by `user_id=eq.<uid>`, modelled by the owner id it is scoped to. -/
def subscribeToBookmarks (configured : Bool) (uid : String) :
    Except String String :=
  if configured then .ok uid else .error "Supabase not initialized"

/-- A realtime change-feed event as consumed by the subscription callback:
`payload.eventType` with `payload.new` / `payload.old.id`. -/
inductive RealtimeEvent where
  | insert (new : Bookmark)
  | update (new : Bookmark)
  | delete (oldId : String)
deriving DecidableEq, Repr

/-- The realtime subscription callback of `Home`:
`INSERT` prepends `payload.new` unconditionally;
`DELETE` filters out `payload.old.id`;
`UPDATE` maps, replacing every record whose `id` equals `payload.new.id`. -/
def applyEvent (prev : List Bookmark) (e : RealtimeEvent) : List Bookmark :=
  match e with
  | .insert b => b :: prev
  | .delete i => prev.filter fun b => !(b.id == i)
  | .update b => prev.map fun x => if x.id == b.id then b else x

/-- `handleAddBookmark` of `Home`: returns immediately when no user is signed
in; otherwise calls `addBookmark` and, on a non-null result, optimistically
prepends the returned record.  The boolean records whether the store client
was invoked. -/
def handleAddBookmark (user : Option String) (title url : String)
    (configured : Bool) (resp : Except String Bookmark)
    (prev : List Bookmark) : List Bookmark × Bool :=
  match user with
  | none => (prev, false)
  | some uid =>
    match addBookmark configured uid title url resp with
    | none => (prev, true)
    | some newBookmark => (newBookmark :: prev, true)

/-- `handleDeleteBookmark` of `Home`: calls `deleteBookmark` and filters the
id out of the local state only when the call reported success. -/
def handleDeleteBookmark (configured rf : Bool) (id : String)
    (prev : List Bookmark) : List Bookmark :=
  if deleteBookmark configured rf then prev.filter (fun b => !(b.id == id))
  else prev

/-- `loadBookmarks` of `Home`: returns immediately when no user is signed in
(no remote call, state untouched); otherwise replaces the list with
`getBookmarks(user.id)`.  The boolean records whether a remote call was
issued. -/
def loadBookmarks (user : Option String) (configured rf : Bool)
    (db prev : List Bookmark) : List Bookmark × Bool :=
  match user with
  | none => (prev, false)
  | some uid => (getBookmarks configured rf db uid, true)

/-- The `Home` component state relevant to reconciliation: the current
principal, the in-memory bookmark list, and the owner scope of the active
push channel (`none` when no channel is open). -/
structure AppState where
  user : Option String
  bookmarks : List Bookmark
  channel : Option String
deriving DecidableEq, Repr

/-- The composite effect of a principal change in `Home`: the bookmarks
effect clears the list (no user) or replaces it with a fresh
`getBookmarks` load, and the subscription effect unsubscribes the previous
channel and opens a new one only when a user is present and the client is
configured.  The prior state `s` is discarded entirely. -/
def onUserChange (newUser : Option String) (configured rf : Bool)
    (db : List Bookmark) (s : AppState) : AppState :=
  { user := newUser
    bookmarks :=
      match newUser with
      | none => []
      | some uid => getBookmarks configured rf db uid
    channel :=
      match newUser with
      | none => none
      | some uid => if configured then some uid else none }

/-- `handleSignOut` of `Home`: `await signOut()` — which throws when the
client is unconfigured, so that on that path neither `setUser(null)` nor
`setBookmarks([])` ever runs and no state transition occurs — then clears
the user and the list, after which the user-change effects run. -/
def handleSignOut (configured rf : Bool) (db : List Bookmark)
    (s : AppState) : Except String AppState :=
  match signOut configured with
  | .error e => .error e
  | .ok _ =>
    .ok (onUserChange none configured rf db
          { s with user := none, bookmarks := [] })

/-! ### Helper lemmas -/

theorem all_filter_self (p : Bookmark → Bool) (l : List Bookmark) :
    (l.filter p).all p = true := by
  rw [List.all_eq_true]
  intro x hx
  exact (List.mem_filter.mp hx).2

theorem queryBookmarks_all_owner (db : List Bookmark) (uid : String) :
    (queryBookmarks db uid).all (fun b => b.user_id == uid) = true := by
  rw [List.all_eq_true]
  intro x hx
  have hmem : x ∈ db.filter (fun b => b.user_id == uid) :=
    (List.perm_insertionSort byNewest _).mem_iff.mp hx
  exact (List.mem_filter.mp hmem).2

theorem getBookmarks_all_owner (configured rf : Bool) (db : List Bookmark)
    (uid : String) :
    (getBookmarks configured rf db uid).all (fun b => b.user_id == uid) = true := by
  cases configured with
  | false => rfl
  | true =>
    cases rf with
    | false => exact queryBookmarks_all_owner db uid
    | true => rfl

/-! ### C1 — idempotence of remote insert and delete events -/

/-- A concrete record for the C1 refutation. -/
def rC1 : Bookmark :=
  { id := "b1", user_id := "u1", title := "Example",
    url := "https://example.com", created_at := 1 }

/-- C1: the claim is refuted on the code.  The `INSERT` branch of the
realtime callback prepends `payload.new` unconditionally, without checking
whether a record with that `id` is already present, so delivering the same
insert event twice duplicates the record: starting from the empty list, two
deliveries of the insert event for `rC1` yield `[rC1, rC1]`, which differs
from the single-delivery state `[rC1]`.  (The delete branch is a filter and
is idempotent; the insert branch is what breaks the claim.) -/
theorem insert_event_not_idempotent :
    applyEvent (applyEvent [] (.insert rC1)) (.insert rC1) = [rC1, rC1]
    ∧ applyEvent (applyEvent [] (.insert rC1)) (.insert rC1)
        ≠ applyEvent [] (.insert rC1) := by
  constructor
  · rfl
  · decide

/-! ### C2 — local delete and the success boolean -/

/-- A concrete record for the C2 counterexample. -/
def rC2 : Bookmark :=
  { id := "d1", user_id := "u1", title := "T",
    url := "https://t.example", created_at := 1 }

/-- C2 counterexample: the claim says the id is absent from the list
immediately after `remove(id)` regardless of the remote outcome, but
`handleDeleteBookmark` filters only `if (success)`: with a configured client
whose remote delete fails, the record with id `d1` is still present
afterwards. -/
theorem remove_failure_record_remains :
    rC2 ∈ handleDeleteBookmark true true "d1" [rC2] ∧ rC2.id = "d1" := by
  constructor
  · decide
  · rfl

/-- C2 amended: after `remove(id)`, the id is absent from the list exactly
when the remote call reported success; when the call reports failure
(remote error, or unconfigured client — `deleteBookmark` returns `false` in
both cases) the list is left unchanged. -/
theorem remove_absent_iff_success (id : String) (prev : List Bookmark) :
    deleteBookmark true false = true
    ∧ (handleDeleteBookmark true false id prev).all (fun b => !(b.id == id)) = true
    ∧ deleteBookmark true true = false
    ∧ handleDeleteBookmark true true id prev = prev
    ∧ deleteBookmark false false = false
    ∧ handleDeleteBookmark false false id prev = prev := by
  refine ⟨rfl, ?_, rfl, rfl, rfl, rfl⟩
  exact all_filter_self _ prev

/-! ### C3 — round-trip of a successful create -/

/-- A concrete record for the C3 refutation. -/
def rC3 : Bookmark :=
  { id := "b3", user_id := "u1", title := "Example",
    url := "https://example.com", created_at := 2 }

/-- C3: the claim is refuted on the code.  After a successful create the
caller optimistically prepends the returned record, and the realtime
`INSERT` event for that same creation is then prepended again by the
unguarded insert branch: the returned id appears twice, not exactly once. -/
theorem create_roundtrip_id_twice :
    ((applyEvent
        (handleAddBookmark (some "u1") "Example" "https://example.com" true
          (.ok rC3) []).1
        (.insert rC3)).map Bookmark.id) = ["b3", "b3"]
    ∧ (((applyEvent
        (handleAddBookmark (some "u1") "Example" "https://example.com" true
          (.ok rC3) []).1
        (.insert rC3)).map Bookmark.id).count "b3") ≠ 1 := by
  constructor
  · rfl
  · decide

/-! ### C4 — ownership and no-duplicate invariant of reachable states -/

/-- A concrete record for the C4 refutation. -/
def rC4 : Bookmark :=
  { id := "b4", user_id := "u1", title := "T",
    url := "https://t.example", created_at := 3 }

/-- C4: the no-duplicate half of the invariant is refuted on the code by a
reachable trace: load the (empty) store for principal `u1`, perform a
successful local create of `rC4` (owned by `u1`), then receive the push
`INSERT` event for that same creation.  Every transition is a reconciliation
transition with `u1` as current principal, yet the final list holds the id
`b4` twice. -/
theorem reachable_state_duplicate_id :
    ¬ (((applyEvent
        (handleAddBookmark (some "u1") "T" "https://t.example" true
          (.ok rC4) (getBookmarks true false [] "u1")).1
        (.insert rC4)).map Bookmark.id).Nodup) := by
  decide

/-! ### C5 — principal-change reset -/

/-- C5: on every principal change the prior state is discarded entirely:
switching to principal `B` yields a state whose list holds only records owned
by `B` (in every configuration/failure case), a state independent of the
prior state, and a channel scoped to `B` (opened only on a configured
client); a change to no principal clears the list and tears the channel
down.  Sign-out can only occur on a configured client (an unconfigured
client never has a principal — the component renders the configuration
notice instead): there `handleSignOut` resets user, list and channel; on an
unconfigured client `signOut` throws, so `handleSignOut` produces no state
at all — in particular no partial carry-over. -/
theorem principal_change_reset (s t : AppState) (B : String)
    (configured rf : Bool) (db : List Bookmark) :
    (onUserChange (some B) configured rf db s).bookmarks.all
        (fun b => b.user_id == B) = true
    ∧ onUserChange (some B) configured rf db s
        = onUserChange (some B) configured rf db t
    ∧ (onUserChange (some B) configured rf db s).channel
        = (if configured then some B else none)
    ∧ onUserChange none configured rf db s
        = { user := none, bookmarks := [], channel := none }
    ∧ handleSignOut true rf db s
        = .ok { user := none, bookmarks := [], channel := none }
    ∧ handleSignOut false rf db s = .error "Supabase not configured" :=
  ⟨getBookmarks_all_owner configured rf db B, rfl, rfl, rfl, rfl, rfl⟩

/-! ### C6 — remote update events replace in place -/

theorem map_update_id_not_present (prev : List Bookmark) (b : Bookmark)
    (h : (prev.all fun x => !(x.id == b.id)) = true) :
    (prev.map fun x => if x.id == b.id then b else x) = prev := by
  induction prev with
  | nil => rfl
  | cons y ys ih =>
    rw [List.all_cons, Bool.and_eq_true] at h
    have hy : (y.id == b.id) = false := by
      cases hyb : (y.id == b.id)
      · rfl
      · rw [hyb] at h
        exact absurd h.1 (by decide)
    rw [List.map_cons, ih h.2, hy]
    simp

/-- C6: a remote `UPDATE` event never changes the length of the list (so it
never adds an entry); positionally, the record at each index is replaced by
`payload.new` exactly when its `id` matches and is otherwise untouched
(in-place replacement); and when no record with the event's id exists the
event is a no-op. -/
theorem update_event_spec (prev : List Bookmark) (b : Bookmark) :
    (applyEvent prev (.update b)).length = prev.length
    ∧ (∀ i : Nat, (applyEvent prev (.update b))[i]?
        = (prev[i]?).map fun x => if x.id == b.id then b else x)
    ∧ ((prev.all fun x => !(x.id == b.id)) = true →
        applyEvent prev (.update b) = prev) := by
  refine ⟨?_, fun i => ?_, fun h => map_update_id_not_present prev b h⟩
  · exact List.length_map prev _
  · exact List.getElem?_map _ prev i

/-- Records for the C6 witness: an update event for an id (`x2`) absent from
the one-element list `[rC6a]`. -/
def rC6a : Bookmark :=
  { id := "x1", user_id := "u1", title := "A",
    url := "https://a.example", created_at := 1 }

def rC6b : Bookmark :=
  { id := "x2", user_id := "u1", title := "B",
    url := "https://b.example", created_at := 2 }

theorem update_event_spec_witness :
    applyEvent [rC6a] (.update rC6b) = [rC6a] :=
  (update_event_spec [rC6a] rC6b).2.2 (by decide)

/-! ### C7 — list: owner-scoped, newest first, total on failure -/

/-- C7: `getBookmarks(uid)` on the success path returns exactly the owner's
records (a permutation of the owner filter of the store), every returned
record is owned by `uid`, and the result is sorted by `created_at`
descending; when the remote reports a failure, and when the client is
unconfigured, it returns the empty list — the function is total, so the
caller never sees a raised fault. -/
theorem list_owner_sorted_total (db : List Bookmark) (uid : String) :
    List.Sorted byNewest (getBookmarks true false db uid)
    ∧ (getBookmarks true false db uid).all (fun b => b.user_id == uid) = true
    ∧ List.Perm (getBookmarks true false db uid)
        (db.filter (fun b => b.user_id == uid))
    ∧ getBookmarks true true db uid = []
    ∧ getBookmarks false false db uid = []
    ∧ getBookmarks false true db uid = [] :=
  ⟨List.sorted_insertionSort byNewest _,
   queryBookmarks_all_owner db uid,
   List.perm_insertionSort byNewest _,
   rfl, rfl, rfl⟩

/-! ### C8 — failed create leaves the state unchanged -/

/-- C8: on a remote failure `addBookmark` returns the absence sentinel
(`none`) — likewise when the client is unconfigured — and
`handleAddBookmark` then leaves the in-memory list exactly as it was: no
optimistic or phantom entry is inserted for a failed create. -/
theorem create_failure_no_state_change (configured : Bool)
    (e uid title url : String) (prev : List Bookmark) :
    addBookmark configured uid title url (.error e) = none
    ∧ handleAddBookmark (some uid) title url configured (.error e) prev
        = (prev, true) := by
  cases configured with
  | false => exact ⟨rfl, rfl⟩
  | true => exact ⟨rfl, rfl⟩

/-! ### C9 — behaviour of the public surface when unconfigured -/

/-- C9 counterexample: the claim says every public operation completes
without raising a fault in the unconfigured state, but `subscribe`, sign-in
and sign-out all throw (`Except.error`) when the client is unconfigured. -/
theorem unconfigured_ops_fault :
    subscribeToBookmarks false "u1" = .error "Supabase not initialized"
    ∧ signInWithGoogle false = .error "Supabase not configured"
    ∧ signOut false = .error "Supabase not configured" :=
  ⟨rfl, rfl, rfl⟩

/-- C9 amended: in the unconfigured state, `list` returns `[]`, `create`
returns the absence sentinel and `remove` returns `false` — each without a
fault, and each independent of the remote environment (the results hold for
every store, response and failure flag, so no remote operation is
attempted) — while `subscribe`, sign-in and sign-out raise a fault
(`throw new Error`) instead of completing.  (The reconciliation layer never
reaches the throwing `subscribe` branch: its effect is guarded by
`if (!user || !supabase) return`.) -/
theorem unconfigured_surface_behavior (uid title url : String) (rf : Bool)
    (db : List Bookmark) (resp : Except String Bookmark) :
    getBookmarks false rf db uid = []
    ∧ addBookmark false uid title url resp = none
    ∧ deleteBookmark false rf = false
    ∧ subscribeToBookmarks false uid = .error "Supabase not initialized"
    ∧ signInWithGoogle false = .error "Supabase not configured"
    ∧ signOut false = .error "Supabase not configured" :=
  ⟨rfl, rfl, rfl, rfl, rfl, rfl⟩

/-! ### C10 — signed-out create and reload are no-ops -/

/-- C10: with no principal signed in, `handleAddBookmark` returns without
invoking the store client and without changing the list (for every title,
url, configuration and would-be remote response), and `loadBookmarks`
returns without issuing a remote call and without changing the list. -/
theorem signed_out_requests_noop (title url : String) (configured rf : Bool)
    (resp : Except String Bookmark) (db prev : List Bookmark) :
    handleAddBookmark none title url configured resp prev = (prev, false)
    ∧ loadBookmarks none configured rf db prev = (prev, false) :=
  ⟨rfl, rfl⟩

end SmartBookmark
